import Mathlib

/-!
Verification of the Shiftai Agentic Infra Python SDK transport layer
(`shiftai/http/http_client.py`, `shiftai/http/exceptions.py`,
`shiftai/models/__init__.py`, and the facade pattern of `shiftai/api/*.py`)
as a shallow embedding in Lean.

JSON payloads are modelled by the inductive `JValue`; Python `datetime`
values produced by `datetime.fromisoformat` are modelled by `PyDateTime`;
the transport operations of `HttpClient` are modelled as pure functions
from a stubbed network outcome to `Except`-style results.
-/

set_option autoImplicit false

namespace ShiftaiSdk

/-- Model of a Python `datetime.datetime` value as produced by
`datetime.fromisoformat`: calendar fields plus an optional fixed UTC
offset in seconds (`none` models a naive datetime). -/
structure PyDateTime where
  year : Nat
  month : Nat
  day : Nat
  hour : Nat := 0
  minute : Nat := 0
  second : Nat := 0
  microsecond : Nat := 0
  utcoffset : Option Int := none
  deriving DecidableEq, Repr

/-- Gregorian leap-year test, as used by Python's `datetime.date`. -/
def isLeapYear (y : Nat) : Bool :=
  (y % 4 == 0 && y % 100 != 0) || y % 400 == 0

/-- Number of days in a month, as validated by Python's `datetime.date`. -/
def daysInMonth (y m : Nat) : Nat :=
  if m == 2 then (if isLeapYear y then 29 else 28)
  else if m == 4 || m == 6 || m == 9 || m == 11 then 30
  else 31

/-- Value of a decimal digit character, `none` for non-digits. -/
def digitVal? (c : Char) : Option Nat :=
  if c.isDigit then some (c.toNat - 48) else none

/-- Parse exactly two decimal digits from the front of a character list. -/
def parse2 : List Char → Option (Nat × List Char)
  | c1 :: c2 :: rest =>
    match digitVal? c1, digitVal? c2 with
    | some a, some b => some (10 * a + b, rest)
    | _, _ => none
  | _ => none

/-- Parse exactly four decimal digits from the front of a character list. -/
def parse4 : List Char → Option (Nat × List Char)
  | c1 :: c2 :: c3 :: c4 :: rest =>
    match digitVal? c1, digitVal? c2, digitVal? c3, digitVal? c4 with
    | some a, some b, some c, some d => some (1000 * a + 100 * b + 10 * c + d, rest)
    | _, _, _, _ => none
  | _ => none

/-- Take a maximal run of decimal digits from the front of a character list. -/
def takeDigits : List Char → List Nat × List Char
  | [] => ([], [])
  | c :: cs =>
    match digitVal? c with
    | some d => let (ds, rest) := takeDigits cs; (d :: ds, rest)
    | none => ([], c :: cs)

/-- Numeric value of a digit run. -/
def digitsVal (ds : List Nat) : Nat :=
  ds.foldl (fun acc d => 10 * acc + d) 0

/-- Parse a trailing UTC-offset suffix `+HH:MM[:SS]` / `-HH:MM[:SS]` of an
ISO-8601 string (empty input means a naive datetime).  Returns the offset
in seconds; an offset of 24 hours or more is rejected, as Python's
`datetime.timezone` rejects it. -/
def parseTzSuffix : List Char → Option (Option Int)
  | [] => some none
  | c :: rest =>
    let signVal : Option Int :=
      if c == '+' then some 1 else if c == '-' then some (-1) else none
    match signVal with
    | none => none
    | some sign =>
      match parse2 rest with
      | none => none
      | some (h, rest1) =>
        match rest1 with
        | ':' :: rest2 =>
          match parse2 rest2 with
          | none => none
          | some (m, rest3) =>
            if m ≤ 59 then
              match rest3 with
              | [] =>
                let total := h * 3600 + m * 60
                if total < 86400 then some (some (sign * (total : Int))) else none
              | ':' :: rest4 =>
                match parse2 rest4 with
                | none => none
                | some (s, rest5) =>
                  if s ≤ 59 && rest5 == [] then
                    let total := h * 3600 + m * 60 + s
                    if total < 86400 then some (some (sign * (total : Int))) else none
                  else none
              | _ => none
            else none
        | _ => none

/-- Parse the time-of-day part `HH[:MM[:SS[.ffffff]]][offset]` of an
ISO-8601 string, given the already-parsed date fields. -/
def parseTimePart (y mo d : Nat) (cs : List Char) : Option PyDateTime :=
  match parse2 cs with
  | none => none
  | some (hh, cs1) =>
    if hh ≤ 23 then
      match cs1 with
      | ':' :: cs2 =>
        match parse2 cs2 with
        | none => none
        | some (mi, cs3) =>
          if mi ≤ 59 then
            match cs3 with
            | ':' :: cs4 =>
              match parse2 cs4 with
              | none => none
              | some (ss, cs5) =>
                if ss ≤ 59 then
                  match cs5 with
                  | '.' :: cs6 =>
                    let (ds, cs7) := takeDigits cs6
                    if 1 ≤ ds.length && ds.length ≤ 6 then
                      let micro := digitsVal ds * 10 ^ (6 - ds.length)
                      match parseTzSuffix cs7 with
                      | none => none
                      | some tz => some ⟨y, mo, d, hh, mi, ss, micro, tz⟩
                    else none
                  | _ =>
                    match parseTzSuffix cs5 with
                    | none => none
                    | some tz => some ⟨y, mo, d, hh, mi, ss, 0, tz⟩
                else none
            | _ =>
              match parseTzSuffix cs3 with
              | none => none
              | some tz => some ⟨y, mo, d, hh, mi, 0, 0, tz⟩
          else none
      | _ =>
        match parseTzSuffix cs1 with
        | none => none
        | some tz => some ⟨y, mo, d, hh, 0, 0, 0, tz⟩
    else none

/-- Model of Python's `datetime.fromisoformat`, restricted to the extended
ISO-8601 format `YYYY-MM-DD[<sep>HH[:MM[:SS[.f{1,6}]]][±HH:MM[:SS]]]`
that all supported Python versions accept (the date separator may be any
single character); calendar fields are range-validated as the `datetime`
constructor validates them.  `none` models a raised `ValueError`. -/
def fromisoformat (s : String) : Option PyDateTime :=
  match s.toList with
  | y1 :: y2 :: y3 :: y4 :: s1 :: mo1 :: mo2 :: s2 :: d1 :: d2 :: rest =>
    if s1 == '-' && s2 == '-' then
      match parse4 [y1, y2, y3, y4], parse2 [mo1, mo2], parse2 [d1, d2] with
      | some (y, _), some (mo, _), some (d, _) =>
        if 1 ≤ y && 1 ≤ mo && mo ≤ 12 && 1 ≤ d && d ≤ daysInMonth y mo then
          match rest with
          | [] => some ⟨y, mo, d, 0, 0, 0, 0, none⟩
          | _sep :: timeCs => parseTimePart y mo d timeCs
        else none
      | _, _, _ => none
    else none
  | _ => none

/-- Replace every occurrence of `'Z'` in a character list by `"+00:00"`;
models Python's `str.replace('Z', '+00:00')`, which replaces all
occurrences, not only a trailing one. -/
def replaceZChars : List Char → List Char
  | [] => []
  | c :: cs =>
    if c == 'Z' then '+' :: '0' :: '0' :: ':' :: '0' :: '0' :: replaceZChars cs
    else c :: replaceZChars cs

/-- Model of `value.replace('Z', '+00:00')` on Python strings. -/
def pyReplaceZ (s : String) : String :=
  String.mk (replaceZChars s.toList)

/-- Model of Python's `str.rstrip('/')`: remove every trailing `'/'`. -/
def pyRstripSlash (s : String) : String :=
  String.mk ((s.toList.reverse.dropWhile (fun c => c == '/')).reverse)

/-- Model of the Python test `not s or not s.strip()` on a `str` value:
true exactly when the string is empty or all-whitespace. -/
def pyIsBlank (s : String) : Bool :=
  s.toList.all Char.isWhitespace

/-- A parsed JSON value, extended with the structured datetime leaf `dt`
that the datetime-coercion walk produces.  A payload freshly returned by
`response.json()` contains no `dt` leaf.  JSON numbers are modelled as
integers (no claim depends on fractional numeric payloads); objects are
ordered key/value lists, as Python `dict`s preserve insertion order. -/
inductive JValue where
  | null
  | bool (b : Bool)
  | num (n : Int)
  | str (s : String)
  | dt (d : PyDateTime)
  | arr (items : List JValue)
  | obj (entries : List (String × JValue))

/-- First value bound to key `k` in a JSON object's entry list (Python
`dict` access; parsed JSON objects have unique keys). -/
def jlookup (entries : List (String × JValue)) (k : String) : Option JValue :=
  match entries.find? (fun kv => kv.1 == k) with
  | some kv => some kv.2
  | none => none

mutual

/-- Model of `HttpClient._deserialize_datetime`: a string is coerced to a
structured datetime when `datetime.fromisoformat(value.replace('Z', '+00:00'))`
succeeds and passed through unchanged when it raises; dictionaries and
lists are walked recursively; every other value is returned unchanged. -/
def deserializeDatetime : JValue → JValue
  | .str s =>
    match fromisoformat (pyReplaceZ s) with
    | some d => .dt d
    | none => .str s
  | .obj entries => .obj (deserializeDatetimeEntries entries)
  | .arr items => .arr (deserializeDatetimeList items)
  | v => v

/-- Elementwise `_deserialize_datetime` over a JSON array's items. -/
def deserializeDatetimeList : List JValue → List JValue
  | [] => []
  | v :: vs => deserializeDatetime v :: deserializeDatetimeList vs

/-- Valuewise `_deserialize_datetime` over a JSON object's entries. -/
def deserializeDatetimeEntries : List (String × JValue) → List (String × JValue)
  | [] => []
  | (k, v) :: kvs => (k, deserializeDatetime v) :: deserializeDatetimeEntries kvs

end

/-- The declared field set of a response dataclass (`__dataclass_fields__`
of a `@dataclass` in `shiftai/models/__init__.py`).  Every response type
the SDK passes to the transport layer is a dataclass all of whose fields
default to `None`, so only the field-name list is needed. -/
structure ResponseShape where
  fields : List String

/-- Model of `HttpClient._filter_known_fields` for a dataclass target:
keep only the entries whose key is a declared field.  (The source's
`hasattr(response_type, '__dataclass_fields__')` guard is always true for
the SDK's response types, which are all dataclasses.) -/
def filterKnownFields (sh : ResponseShape) (entries : List (String × JValue)) :
    List (String × JValue) :=
  entries.filter (fun kv => sh.fields.contains kv.1)

/-- Model of the dataclass call `response_type(**kwargs)` for a response
dataclass whose fields all default to `None`: fails (Python `TypeError`,
"unexpected keyword argument") when some keyword is not a declared field;
otherwise yields the instance, i.e. every declared field bound to the
given value or to `None`. -/
def constructDataclass (sh : ResponseShape) (kwargs : List (String × JValue)) :
    Option (List (String × JValue)) :=
  if kwargs.all (fun kv => sh.fields.contains kv.1) then
    some (sh.fields.map (fun f => (f, (jlookup kwargs f).getD .null)))
  else none

/-- The closed error taxonomy of `shiftai/http/exceptions.py`: the four
specialised kinds plus the generic `ApiException` base, each carrying the
status code (fixed to 401/400/404 by the subclass constructors) and the
optional raw response body.  The generic kind also carries its message,
which varies across raise sites. -/
inductive ApiError where
  | unauthorized (responseBody : Option String)
  | badRequest (responseBody : Option String)
  | notFound (responseBody : Option String)
  | serverError (status : Nat) (responseBody : Option String)
  | generic (status : Nat) (message : String) (responseBody : Option String)
  deriving DecidableEq, Repr

/-- `status_code` attribute of an exception, as set by the constructors in
`exceptions.py`. -/
def ApiError.statusCode : ApiError → Nat
  | .unauthorized _ => 401
  | .badRequest _ => 400
  | .notFound _ => 404
  | .serverError s _ => s
  | .generic s _ _ => s

/-- `response_body` attribute of an exception. -/
def ApiError.responseBody : ApiError → Option String
  | .unauthorized b => b
  | .badRequest b => b
  | .notFound b => b
  | .serverError _ b => b
  | .generic _ _ b => b

/-- Failures observable by SDK callers: a Python `ValueError` (the
precondition failure of `ensure_authenticated` and of facade argument
validation) or a member of the `ApiException` hierarchy. -/
inductive SdkError where
  | valueError (msg : String)
  | api (e : ApiError)
  deriving DecidableEq, Repr

/-- An HTTP response as the transport observes it through httpx:
status code, the raw text body (`none` when reading `.text` raises), and
the JSON parse of the body (`none` when `response.json()` raises). -/
structure HttpResponse where
  status : Nat
  text : Option String
  json : Option JValue

/-- httpx's `response.is_success`: a 2xx status code. -/
def isSuccessStatus (n : Nat) : Bool :=
  200 ≤ n && n < 300

/-- Model of `HttpClient._handle_error`: map a non-success response to a
typed exception, in the source's branch order (401, 400, 404, 5xx,
everything else), attaching the raw body to each. -/
def handleError (r : HttpResponse) : ApiError :=
  if r.status == 401 then .unauthorized r.text
  else if r.status == 400 then .badRequest r.text
  else if r.status == 404 then .notFound r.text
  else if 500 ≤ r.status && r.status < 600 then .serverError r.status r.text
  else .generic r.status ("API request failed with status " ++ toString r.status) r.text

/-- The Python type name interpolated into the "Expected list" message. -/
def pyTypeName : JValue → String
  | .null => "NoneType"
  | .bool _ => "bool"
  | .num _ => "int"
  | .str _ => "str"
  | .dt _ => "datetime"
  | .arr _ => "list"
  | .obj _ => "dict"

/-- Outcome of one attempted network exchange: a response, or a raised
network-level exception with its description. -/
inductive NetOutcome where
  | ok (r : HttpResponse)
  | fault (msg : String)

/-- A stubbed backend: maps the request URL and the (structured) request
body to a network outcome.  Serialization of the body to its wire string
is not modelled; operations without a body pass `none`. -/
def NetStub : Type := String → Option JValue → NetOutcome

/-- The transport's per-instance state: the base URL as stored by
`__init__` and the optional API key. -/
structure HttpClient where
  baseUrl : String
  apiKey : Option String

/-- Model of `HttpClient.__init__`: the base URL is normalized with
`rstrip('/')` once, at construction; the API key is stored as given. -/
def HttpClient.init (baseUrl : String) (apiKey : Option String) : HttpClient :=
  { baseUrl := pyRstripSlash baseUrl, apiKey := apiKey }

/-- The request URL `f"{self.base_url}{path}"` built by every operation. -/
def HttpClient.buildUrl (c : HttpClient) (path : String) : String :=
  c.baseUrl ++ path

/-- Python truthiness of an `Optional[str]`: `None` and `""` are falsy. -/
def pyTruthyOptStr : Option String → Bool
  | none => false
  | some s => !s.isEmpty

/-- The `ValueError` message of `HttpClient.ensure_authenticated`. -/
def apiKeyRequiredMessage : String :=
  "This operation requires an API key. Please initialize the client with an api_key parameter, or obtain one by registering a platform first."

/-- Model of `HttpClient.ensure_authenticated`: raise `ValueError` when
`not self.api_key`, i.e. when the key is `None` or the empty string. -/
def HttpClient.ensure_authenticated (c : HttpClient) : Except SdkError Unit :=
  if pyTruthyOptStr c.apiKey then .ok ()
  else .error (.valueError apiKeyRequiredMessage)

/-- A successful transport result for the object and list shapes: either a
constructed instance of the target dataclass (all declared fields bound),
or a non-object payload passed through unchanged. -/
inductive ShapedValue where
  | typed (fields : List (String × JValue))
  | raw (v : JValue)

/-- Model of `HttpClient.get`: issue the request, classify non-success
statuses through `_handle_error`, JSON-parse and datetime-coerce the
body, then construct the target from a dict payload after dropping
unknown fields; non-dict payloads pass through.  Non-`ApiException`
faults (network errors, parse errors, construction `TypeError`s) are
caught by the final `except` and re-raised as `ApiException(0, ...)`;
`ApiException`s propagate unchanged. -/
def HttpClient.get (c : HttpClient) (path : String) (sh : ResponseShape)
    (net : NetStub) : Except ApiError ShapedValue :=
  match net (c.buildUrl path) none with
  | .fault m => .error (.generic 0 ("IO error: " ++ m) none)
  | .ok r =>
    if isSuccessStatus r.status then
      match r.json with
      | none => .error (.generic 0 "IO error: JSON decode failed" none)
      | some data =>
        match deserializeDatetime data with
        | .obj entries =>
          match constructDataclass sh (filterKnownFields sh entries) with
          | some o => .ok (.typed o)
          | none => .error (.generic 0 "IO error: TypeError" none)
        | v => .ok (.raw v)
    else .error (handleError r)

/-- One element conversion of `HttpClient.get_list`: dict elements are
filtered to known fields and constructed, other elements appended as-is. -/
def getListElement (sh : ResponseShape) : JValue → Except ApiError ShapedValue
  | .obj entries =>
    match constructDataclass sh (filterKnownFields sh entries) with
    | some o => .ok (.typed o)
    | none => .error (.generic 0 "IO error: TypeError" none)
  | v => .ok (.raw v)

/-- One element conversion of `HttpClient.post_list`:
`element_type(**item) if isinstance(item, dict) else item` — no
unknown-field filtering before construction. -/
def postListElement (sh : ResponseShape) : JValue → Except ApiError ShapedValue
  | .obj entries =>
    match constructDataclass sh entries with
    | some o => .ok (.typed o)
    | none => .error (.generic 0 "IO error: TypeError" none)
  | v => .ok (.raw v)

/-- The element-conversion loop of `get_list` / `post_list`: convert each
element in order, stopping at the first raised exception. -/
def convertElements (f : JValue → Except ApiError ShapedValue) :
    List JValue → Except ApiError (List ShapedValue)
  | [] => .ok []
  | x :: xs =>
    match f x with
    | .error e => .error e
    | .ok v =>
      match convertElements f xs with
      | .error e => .error e
      | .ok vs => .ok (v :: vs)

/-- Model of `HttpClient.get_list`: as `get`, but the coerced payload must
be a list (`ApiException(0, "Expected list, got ...")` otherwise), and
each element is converted by `getListElement`. -/
def HttpClient.get_list (c : HttpClient) (path : String) (sh : ResponseShape)
    (net : NetStub) : Except ApiError (List ShapedValue) :=
  match net (c.buildUrl path) none with
  | .fault m => .error (.generic 0 ("IO error: " ++ m) none)
  | .ok r =>
    if isSuccessStatus r.status then
      match r.json with
      | none => .error (.generic 0 "IO error: JSON decode failed" none)
      | some data =>
        match deserializeDatetime data with
        | .arr items => convertElements (getListElement sh) items
        | v => .error (.generic 0 ("Expected list, got " ++ pyTypeName v) none)
    else .error (handleError r)

/-- Model of `HttpClient.post`: like `get` but carrying a body, and —
unlike `get` — constructing the target via `response_type(**data)`
directly, without `_filter_known_fields`. -/
def HttpClient.post (c : HttpClient) (path : String) (body : Option JValue)
    (sh : ResponseShape) (net : NetStub) : Except ApiError ShapedValue :=
  match net (c.buildUrl path) body with
  | .fault m => .error (.generic 0 ("IO error: " ++ m) none)
  | .ok r =>
    if isSuccessStatus r.status then
      match r.json with
      | none => .error (.generic 0 "IO error: JSON decode failed" none)
      | some data =>
        match deserializeDatetime data with
        | .obj entries =>
          match constructDataclass sh entries with
          | some o => .ok (.typed o)
          | none => .error (.generic 0 "IO error: TypeError" none)
        | v => .ok (.raw v)
    else .error (handleError r)

/-- Model of `HttpClient.post_list`: like `get_list` but carrying a body
and converting elements by `postListElement` (no unknown-field filter). -/
def HttpClient.post_list (c : HttpClient) (path : String) (body : Option JValue)
    (sh : ResponseShape) (net : NetStub) : Except ApiError (List ShapedValue) :=
  match net (c.buildUrl path) body with
  | .fault m => .error (.generic 0 ("IO error: " ++ m) none)
  | .ok r =>
    if isSuccessStatus r.status then
      match r.json with
      | none => .error (.generic 0 "IO error: JSON decode failed" none)
      | some data =>
        match deserializeDatetime data with
        | .arr items => convertElements (postListElement sh) items
        | v => .error (.generic 0 ("Expected list, got " ++ pyTypeName v) none)
    else .error (handleError r)

/-- Model of `HttpClient.post_without_auth`: identical pipeline to `post`
(the difference — no `Api-Key` header — lives outside the model's
observables). -/
def HttpClient.post_without_auth (c : HttpClient) (path : String)
    (body : Option JValue) (sh : ResponseShape) (net : NetStub) :
    Except ApiError ShapedValue :=
  match net (c.buildUrl path) body with
  | .fault m => .error (.generic 0 ("IO error: " ++ m) none)
  | .ok r =>
    if isSuccessStatus r.status then
      match r.json with
      | none => .error (.generic 0 "IO error: JSON decode failed" none)
      | some data =>
        match deserializeDatetime data with
        | .obj entries =>
          match constructDataclass sh entries with
          | some o => .ok (.typed o)
          | none => .error (.generic 0 "IO error: TypeError" none)
        | v => .ok (.raw v)
    else .error (handleError r)

/-- Model of `HttpClient.get_map_without_auth`: on success return
`response.json()` directly — note: no `_deserialize_datetime` call and no
field projection appear in this method. -/
def HttpClient.get_map_without_auth (c : HttpClient) (path : String)
    (net : NetStub) : Except ApiError JValue :=
  match net (c.buildUrl path) none with
  | .fault m => .error (.generic 0 ("IO error: " ++ m) none)
  | .ok r =>
    if isSuccessStatus r.status then
      match r.json with
      | none => .error (.generic 0 "IO error: JSON decode failed" none)
      | some data => .ok data
    else .error (handleError r)

/-- Model of `HttpClient.post_map`: on success return `response.json()`
directly — no `_deserialize_datetime` call, no projection. -/
def HttpClient.post_map (c : HttpClient) (path : String) (body : Option JValue)
    (net : NetStub) : Except ApiError JValue :=
  match net (c.buildUrl path) body with
  | .fault m => .error (.generic 0 ("IO error: " ++ m) none)
  | .ok r =>
    if isSuccessStatus r.status then
      match r.json with
      | none => .error (.generic 0 "IO error: JSON decode failed" none)
      | some data => .ok data
    else .error (handleError r)

/-- Model of `HttpClient.post_map_without_auth`: as `post_map` with no
credential header; same observable pipeline. -/
def HttpClient.post_map_without_auth (c : HttpClient) (path : String)
    (body : Option JValue) (net : NetStub) : Except ApiError JValue :=
  match net (c.buildUrl path) body with
  | .fault m => .error (.generic 0 ("IO error: " ++ m) none)
  | .ok r =>
    if isSuccessStatus r.status then
      match r.json with
      | none => .error (.generic 0 "IO error: JSON decode failed" none)
      | some data => .ok data
    else .error (handleError r)

/-- The structure shared by every authenticated facade method
(`shiftai/api/*.py`): call `ensure_authenticated` first and only then run
the rest of the method.  The second component counts network calls
attempted; a failed precondition performs none. -/
def runAuthenticated {α : Type} (c : HttpClient)
    (rest : Unit → Except SdkError α × Nat) : Except SdkError α × Nat :=
  match c.ensure_authenticated with
  | .error e => (.error e, 0)
  | .ok _ => rest ()

/-- Lift a transport-layer result into a facade result, recording the one
network call the transport operation attempts. -/
def callTransport {α : Type} (r : Except ApiError α) : Except SdkError α × Nat :=
  match r with
  | .ok v => (.ok v, 1)
  | .error e => (.error (.api e), 1)

/-- Declared field set of the `PlatformMessageSubmissionResponse`
dataclass (`shiftai/models/__init__.py`), in declaration order; every
field defaults to `None`. -/
def platformMessageSubmissionResponseShape : ResponseShape :=
  ⟨["success", "messageId", "conversationId", "message", "contextualPrompt",
    "humanQuery", "previousKConversations", "similarConversations",
    "operationStatus", "conversationTitle"]⟩

/-- The `AgentData` request dataclass. -/
structure AgentData where
  name : String
  platform : String
  version : Option String := none
  metadata : Option JValue := none

/-- The `PlatformMessageSubmissionRequest` dataclass, fields in
declaration order. -/
structure PlatformMessageSubmissionRequest where
  username : Option String := none
  email : Option String := none
  metadata : Option JValue := none
  agentData : Option AgentData := none
  senderType : Option String := none
  message : Option String := none
  intent : Option String := none
  entities : Option JValue := none
  annotations : Option JValue := none
  messageType : Option String := none
  sourceEvent : Option JValue := none
  ragContext : Option String := none
  replyMessageId : Option String := none
  mode : Option String := none

/-- JSON image of an `Optional[str]` field under `dataclasses.asdict`. -/
def jOptStr : Option String → JValue
  | none => .null
  | some s => .str s

/-- JSON image of an optional structured field under
`dataclasses.asdict`. -/
def jOpt : Option JValue → JValue
  | none => .null
  | some v => v

/-- `dataclasses.asdict` on an `AgentData` value. -/
def AgentData.asdict (a : AgentData) : JValue :=
  .obj [("name", .str a.name), ("platform", .str a.platform),
        ("version", jOptStr a.version), ("metadata", jOpt a.metadata)]

/-- `dataclasses.asdict` on a `PlatformMessageSubmissionRequest`:
all fields, in declaration order, `None` fields included as `null`. -/
def PlatformMessageSubmissionRequest.asdict
    (r : PlatformMessageSubmissionRequest) : JValue :=
  .obj [("username", jOptStr r.username),
        ("email", jOptStr r.email),
        ("metadata", jOpt r.metadata),
        ("agentData", match r.agentData with | some a => a.asdict | none => .null),
        ("senderType", jOptStr r.senderType),
        ("message", jOptStr r.message),
        ("intent", jOptStr r.intent),
        ("entities", jOpt r.entities),
        ("annotations", jOpt r.annotations),
        ("messageType", jOptStr r.messageType),
        ("sourceEvent", jOpt r.sourceEvent),
        ("ragContext", jOptStr r.ragContext),
        ("replyMessageId", jOptStr r.replyMessageId),
        ("mode", jOptStr r.mode)]

/-- Model of `MessagesApi.send_human_message`
(`shiftai/api/messages_api.py`): `ensure_authenticated` first, then the
required-argument checks in source order, then the request value is built
(with `senderType="HUMAN"` and `messageType="TEXT"` auto-set) and
submitted through `HttpClient.post` to `/api/platform/messages/submit`. -/
def send_human_message (c : HttpClient)
    (username message agent_name agent_platform user_email : String)
    (user_metadata : Option JValue) (intent : Option String)
    (entities : Option JValue) (annotations : Option JValue)
    (source_event : Option JValue) (agent_version : Option String)
    (agent_metadata : Option JValue) (mode : Option String)
    (net : NetStub) : Except SdkError ShapedValue × Nat :=
  runAuthenticated c (fun _ =>
    if pyIsBlank username then (.error (.valueError "username is required"), 0)
    else if pyIsBlank message then (.error (.valueError "message is required"), 0)
    else if pyIsBlank agent_name then (.error (.valueError "agent_name is required"), 0)
    else if pyIsBlank agent_platform then (.error (.valueError "agent_platform is required"), 0)
    else if (match agent_version with | none => true | some v => pyIsBlank v) then
      (.error (.valueError "agent_version is required"), 0)
    else if pyIsBlank user_email then (.error (.valueError "user_email is required"), 0)
    else
      let agent_data : AgentData :=
        { name := agent_name, platform := agent_platform,
          version := agent_version, metadata := agent_metadata }
      let request : PlatformMessageSubmissionRequest :=
        { username := some username, email := some user_email,
          metadata := user_metadata, message := some message,
          intent := intent, entities := entities, annotations := annotations,
          sourceEvent := source_event, agentData := some agent_data,
          senderType := some "HUMAN", messageType := some "TEXT", mode := mode }
      callTransport (c.post "/api/platform/messages/submit" (some request.asdict)
        platformMessageSubmissionResponseShape net))

/-- A stub backend answering every request with status 200, a fixed raw
body text, and the given JSON payload. -/
def stubOk (payload : JValue) : NetStub :=
  fun _ _ => .ok ⟨200, some "body", some payload⟩

/-- A stub backend answering every request with a fixed response. -/
def stubResp (r : HttpResponse) : NetStub :=
  fun _ _ => .ok r

/-- Whether a JSON value is an object (Python `isinstance(value, dict)`). -/
def JValue.isObj : JValue → Bool
  | .obj _ => true
  | _ => false

/-- Conformance of a successful object-shape result to its declared
shape: a constructed instance binds exactly the declared fields, in
order; a passthrough value is not an object. -/
def objectConforming (sh : ResponseShape) : ShapedValue → Prop
  | .typed o => o.map Prod.fst = sh.fields
  | .raw v => v.isObj = false

mutual

theorem deserializeDatetime_idem :
    ∀ v, deserializeDatetime (deserializeDatetime v) = deserializeDatetime v
  | .null => rfl
  | .bool _ => rfl
  | .num _ => rfl
  | .dt _ => rfl
  | .str s => by
    cases h : fromisoformat (pyReplaceZ s) with
    | some d => simp [deserializeDatetime, h]
    | none => simp [deserializeDatetime, h]
  | .arr items => by
    simp [deserializeDatetime, deserializeDatetimeList_idem items]
  | .obj entries => by
    simp [deserializeDatetime, deserializeDatetimeEntries_idem entries]

theorem deserializeDatetimeList_idem :
    ∀ xs, deserializeDatetimeList (deserializeDatetimeList xs) = deserializeDatetimeList xs
  | [] => rfl
  | v :: vs => by
    simp [deserializeDatetimeList, deserializeDatetime_idem v,
      deserializeDatetimeList_idem vs]

theorem deserializeDatetimeEntries_idem :
    ∀ kvs, deserializeDatetimeEntries (deserializeDatetimeEntries kvs) = deserializeDatetimeEntries kvs
  | [] => rfl
  | (k, v) :: kvs => by
    simp [deserializeDatetimeEntries, deserializeDatetime_idem v,
      deserializeDatetimeEntries_idem kvs]

end

theorem filterKnownFields_all (sh : ResponseShape) (entries : List (String × JValue)) :
    (filterKnownFields sh entries).all (fun kv => sh.fields.contains kv.1) = true := by
  simp only [List.all_eq_true, filterKnownFields]
  intro kv hkv
  exact (List.mem_filter.mp hkv).2

theorem jlookup_cons (k : String) (v : JValue) (l : List (String × JValue)) (f : String) :
    jlookup ((k, v) :: l) f = if k == f then some v else jlookup l f := by
  by_cases h : (k == f) = true
  · simp [jlookup, List.find?, h]
  · simp only [Bool.not_eq_true] at h
    simp [jlookup, List.find?, h]

theorem filterKnownFields_cons (sh : ResponseShape) (k : String) (v : JValue)
    (l : List (String × JValue)) :
    filterKnownFields sh ((k, v) :: l)
      = if sh.fields.contains k then (k, v) :: filterKnownFields sh l
        else filterKnownFields sh l := by
  by_cases h : k ∈ sh.fields
  · simp [filterKnownFields, List.filter, h]
  · simp [filterKnownFields, List.filter, h]

theorem jlookup_filterKnownFields (sh : ResponseShape) (entries : List (String × JValue))
    (f : String) (hf : sh.fields.contains f = true) :
    jlookup (filterKnownFields sh entries) f = jlookup entries f := by
  induction entries with
  | nil => rfl
  | cons kv rest ih =>
    obtain ⟨k, v⟩ := kv
    rw [filterKnownFields_cons, jlookup_cons]
    by_cases hc : sh.fields.contains k = true
    · rw [if_pos hc, jlookup_cons]
      by_cases hk : (k == f) = true
      · rw [if_pos hk, if_pos hk]
      · simp only [Bool.not_eq_true] at hk
        rw [if_neg (by simp [hk]), if_neg (by simp [hk])]
        exact ih
    · rw [if_neg hc]
      by_cases hk : (k == f) = true
      · exact absurd (eq_of_beq hk ▸ hf) hc
      · simp only [Bool.not_eq_true] at hk
        rw [if_neg (by simp [hk])]
        exact ih

theorem constructDataclass_keys (sh : ResponseShape) (kwargs : List (String × JValue))
    (o : List (String × JValue)) (h : constructDataclass sh kwargs = some o) :
    o.map Prod.fst = sh.fields := by
  unfold constructDataclass at h
  split at h
  · cases h
    rw [List.map_map]
    exact List.map_id sh.fields
  · cases h

theorem constructDataclass_filterKnownFields (sh : ResponseShape)
    (entries : List (String × JValue)) :
    constructDataclass sh (filterKnownFields sh entries)
      = some (sh.fields.map (fun f => (f, (jlookup entries f).getD .null))) := by
  unfold constructDataclass
  rw [filterKnownFields_all sh entries]
  have hmap :
      sh.fields.map (fun f => (f, (jlookup (filterKnownFields sh entries) f).getD JValue.null))
        = sh.fields.map (fun f => (f, (jlookup entries f).getD JValue.null)) := by
    apply List.map_congr_left
    intro f hf
    rw [jlookup_filterKnownFields sh entries f (by simp [List.contains, hf])]
  simp [hmap]

theorem get_success_obj (c : HttpClient) (path : String) (sh : ResponseShape)
    (net : NetStub) (r : HttpResponse) (v : JValue) (entries : List (String × JValue))
    (hn : net (c.buildUrl path) none = .ok r)
    (hs : isSuccessStatus r.status = true)
    (hj : r.json = some v)
    (hd : deserializeDatetime v = .obj entries) :
    c.get path sh net
      = .ok (.typed (sh.fields.map (fun f => (f, (jlookup entries f).getD .null)))) := by
  unfold HttpClient.get
  rw [hn]
  dsimp only
  rw [if_pos hs, hj]
  dsimp only
  rw [hd]
  dsimp only
  rw [constructDataclass_filterKnownFields]

theorem get_error_propagation (c : HttpClient) (path : String) (sh : ResponseShape)
    (net : NetStub) (r : HttpResponse)
    (hn : net (c.buildUrl path) none = .ok r)
    (hs : isSuccessStatus r.status = false) :
    c.get path sh net = .error (handleError r) := by
  unfold HttpClient.get
  rw [hn]
  dsimp only
  rw [if_neg (by simp [hs])]

theorem get_ok_objectConforming (c : HttpClient) (path : String) (sh : ResponseShape)
    (net : NetStub) (v : ShapedValue) (h : c.get path sh net = .ok v) :
    objectConforming sh v := by
  unfold HttpClient.get at h
  cases hn : net (c.buildUrl path) none with
  | fault m => rw [hn] at h; cases h
  | ok r =>
    rw [hn] at h
    dsimp only at h
    by_cases hs : isSuccessStatus r.status = true
    · rw [if_pos hs] at h
      cases hj : r.json with
      | none => rw [hj] at h; cases h
      | some data =>
        rw [hj] at h
        dsimp only at h
        cases hd : deserializeDatetime data with
        | obj entries =>
          rw [hd] at h
          dsimp only at h
          cases hc : constructDataclass sh (filterKnownFields sh entries) with
          | some o =>
            rw [hc] at h
            cases h
            exact constructDataclass_keys sh _ o hc
          | none => rw [hc] at h; cases h
        | null => rw [hd] at h; cases h; rfl
        | bool b => rw [hd] at h; cases h; rfl
        | num n => rw [hd] at h; cases h; rfl
        | str s => rw [hd] at h; cases h; rfl
        | dt d => rw [hd] at h; cases h; rfl
        | arr items => rw [hd] at h; cases h; rfl
    · rw [if_neg hs] at h
      cases h

theorem post_without_auth_eq_post (c : HttpClient) (path : String) (body : Option JValue)
    (sh : ResponseShape) (net : NetStub) :
    c.post_without_auth path body sh net = c.post path body sh net := rfl

theorem post_map_without_auth_eq_post_map (c : HttpClient) (path : String)
    (body : Option JValue) (net : NetStub) :
    c.post_map_without_auth path body net = c.post_map path body net := rfl

theorem post_success_obj (c : HttpClient) (path : String) (body : Option JValue)
    (sh : ResponseShape) (net : NetStub) (r : HttpResponse) (v : JValue)
    (entries : List (String × JValue))
    (hn : net (c.buildUrl path) body = .ok r)
    (hs : isSuccessStatus r.status = true)
    (hj : r.json = some v)
    (hd : deserializeDatetime v = .obj entries)
    (hall : entries.all (fun kv => sh.fields.contains kv.1) = true) :
    c.post path body sh net
      = .ok (.typed (sh.fields.map (fun f => (f, (jlookup entries f).getD .null)))) := by
  unfold HttpClient.post
  rw [hn]
  dsimp only
  rw [if_pos hs, hj]
  dsimp only
  rw [hd]
  dsimp only
  unfold constructDataclass
  rw [hall]
  simp

theorem post_unknown_field_error (c : HttpClient) (path : String) (body : Option JValue)
    (sh : ResponseShape) (net : NetStub) (r : HttpResponse) (v : JValue)
    (entries : List (String × JValue))
    (hn : net (c.buildUrl path) body = .ok r)
    (hs : isSuccessStatus r.status = true)
    (hj : r.json = some v)
    (hd : deserializeDatetime v = .obj entries)
    (hall : entries.all (fun kv => sh.fields.contains kv.1) = false) :
    c.post path body sh net = .error (.generic 0 "IO error: TypeError" none) := by
  unfold HttpClient.post
  rw [hn]
  dsimp only
  rw [if_pos hs, hj]
  dsimp only
  rw [hd]
  dsimp only
  unfold constructDataclass
  rw [hall]
  simp

theorem post_error_propagation (c : HttpClient) (path : String) (body : Option JValue)
    (sh : ResponseShape) (net : NetStub) (r : HttpResponse)
    (hn : net (c.buildUrl path) body = .ok r)
    (hs : isSuccessStatus r.status = false) :
    c.post path body sh net = .error (handleError r) := by
  unfold HttpClient.post
  rw [hn]
  dsimp only
  rw [if_neg (by simp [hs])]

theorem post_ok_objectConforming (c : HttpClient) (path : String) (body : Option JValue)
    (sh : ResponseShape) (net : NetStub) (v : ShapedValue)
    (h : c.post path body sh net = .ok v) :
    objectConforming sh v := by
  unfold HttpClient.post at h
  cases hn : net (c.buildUrl path) body with
  | fault m => rw [hn] at h; cases h
  | ok r =>
    rw [hn] at h
    dsimp only at h
    by_cases hs : isSuccessStatus r.status = true
    · rw [if_pos hs] at h
      cases hj : r.json with
      | none => rw [hj] at h; cases h
      | some data =>
        rw [hj] at h
        dsimp only at h
        cases hd : deserializeDatetime data with
        | obj entries =>
          rw [hd] at h
          dsimp only at h
          cases hc : constructDataclass sh entries with
          | some o =>
            rw [hc] at h
            cases h
            exact constructDataclass_keys sh _ o hc
          | none => rw [hc] at h; cases h
        | null => rw [hd] at h; cases h; rfl
        | bool b => rw [hd] at h; cases h; rfl
        | num n => rw [hd] at h; cases h; rfl
        | str s => rw [hd] at h; cases h; rfl
        | dt d => rw [hd] at h; cases h; rfl
        | arr items => rw [hd] at h; cases h; rfl
    · rw [if_neg hs] at h
      cases h

/-- Whether a JSON value is an array (Python `isinstance(value, list)`). -/
def JValue.isArr : JValue → Bool
  | .arr _ => true
  | _ => false

theorem getListElement_obj (sh : ResponseShape) (entries : List (String × JValue)) :
    getListElement sh (.obj entries)
      = .ok (.typed (sh.fields.map (fun f => (f, (jlookup entries f).getD .null)))) := by
  unfold getListElement
  dsimp only
  rw [constructDataclass_filterKnownFields]

theorem getListElement_ok_conforming (sh : ResponseShape) (x : JValue) (v : ShapedValue)
    (h : getListElement sh x = .ok v) : objectConforming sh v := by
  cases x with
  | obj entries =>
    unfold getListElement at h
    dsimp only at h
    cases hc : constructDataclass sh (filterKnownFields sh entries) with
    | some o =>
      rw [hc] at h
      cases h
      exact constructDataclass_keys sh _ o hc
    | none => rw [hc] at h; cases h
  | null => cases h; rfl
  | bool b => cases h; rfl
  | num n => cases h; rfl
  | str s => cases h; rfl
  | dt d => cases h; rfl
  | arr items => cases h; rfl

theorem postListElement_obj_known (sh : ResponseShape) (entries : List (String × JValue))
    (hall : entries.all (fun kv => sh.fields.contains kv.1) = true) :
    postListElement sh (.obj entries)
      = .ok (.typed (sh.fields.map (fun f => (f, (jlookup entries f).getD .null)))) := by
  unfold postListElement constructDataclass
  dsimp only
  rw [hall]
  simp

theorem postListElement_obj_unknown (sh : ResponseShape) (entries : List (String × JValue))
    (hall : entries.all (fun kv => sh.fields.contains kv.1) = false) :
    postListElement sh (.obj entries) = .error (.generic 0 "IO error: TypeError" none) := by
  unfold postListElement constructDataclass
  dsimp only
  rw [hall]
  simp

theorem postListElement_ok_conforming (sh : ResponseShape) (x : JValue) (v : ShapedValue)
    (h : postListElement sh x = .ok v) : objectConforming sh v := by
  cases x with
  | obj entries =>
    unfold postListElement at h
    dsimp only at h
    cases hc : constructDataclass sh entries with
    | some o =>
      rw [hc] at h
      cases h
      exact constructDataclass_keys sh _ o hc
    | none => rw [hc] at h; cases h
  | null => cases h; rfl
  | bool b => cases h; rfl
  | num n => cases h; rfl
  | str s => cases h; rfl
  | dt d => cases h; rfl
  | arr items => cases h; rfl

theorem convertElements_ok_forall {P : ShapedValue → Prop}
    (f : JValue → Except ApiError ShapedValue)
    (hf : ∀ x v, f x = .ok v → P v) :
    ∀ (items : List JValue) (vs : List ShapedValue),
      convertElements f items = .ok vs → ∀ v ∈ vs, P v
  | [], vs, h => by
    cases h
    intro v hv
    cases hv
  | x :: xs, vs, h => by
    unfold convertElements at h
    cases hx : f x with
    | error e => rw [hx] at h; cases h
    | ok v0 =>
      rw [hx] at h
      dsimp only at h
      cases hr : convertElements f xs with
      | error e => rw [hr] at h; cases h
      | ok vs0 =>
        rw [hr] at h
        cases h
        intro v hv
        rcases List.mem_cons.mp hv with rfl | hv'
        · exact hf x v hx
        · exact convertElements_ok_forall f hf xs vs0 hr v hv'

theorem get_list_array (c : HttpClient) (path : String) (sh : ResponseShape)
    (net : NetStub) (r : HttpResponse) (v : JValue) (items : List JValue)
    (hn : net (c.buildUrl path) none = .ok r)
    (hs : isSuccessStatus r.status = true)
    (hj : r.json = some v)
    (hd : deserializeDatetime v = .arr items) :
    c.get_list path sh net = convertElements (getListElement sh) items := by
  unfold HttpClient.get_list
  rw [hn]
  dsimp only
  rw [if_pos hs, hj]
  dsimp only
  rw [hd]

theorem get_list_nonarray (c : HttpClient) (path : String) (sh : ResponseShape)
    (net : NetStub) (r : HttpResponse) (v : JValue)
    (hn : net (c.buildUrl path) none = .ok r)
    (hs : isSuccessStatus r.status = true)
    (hj : r.json = some v)
    (hd : (deserializeDatetime v).isArr = false) :
    c.get_list path sh net
      = .error (.generic 0 ("Expected list, got " ++ pyTypeName (deserializeDatetime v)) none) := by
  unfold HttpClient.get_list
  rw [hn]
  dsimp only
  rw [if_pos hs, hj]
  dsimp only
  cases hv : deserializeDatetime v with
  | arr items => rw [hv] at hd; cases hd
  | null => rfl
  | bool b => rfl
  | num n => rfl
  | str s => rfl
  | dt d => rfl
  | obj entries => rfl

theorem get_list_error_propagation (c : HttpClient) (path : String) (sh : ResponseShape)
    (net : NetStub) (r : HttpResponse)
    (hn : net (c.buildUrl path) none = .ok r)
    (hs : isSuccessStatus r.status = false) :
    c.get_list path sh net = .error (handleError r) := by
  unfold HttpClient.get_list
  rw [hn]
  dsimp only
  rw [if_neg (by simp [hs])]

theorem get_list_ok_conforming (c : HttpClient) (path : String) (sh : ResponseShape)
    (net : NetStub) (vs : List ShapedValue)
    (h : c.get_list path sh net = .ok vs) :
    ∀ v ∈ vs, objectConforming sh v := by
  unfold HttpClient.get_list at h
  cases hn : net (c.buildUrl path) none with
  | fault m => rw [hn] at h; cases h
  | ok r =>
    rw [hn] at h
    dsimp only at h
    by_cases hs : isSuccessStatus r.status = true
    · rw [if_pos hs] at h
      cases hj : r.json with
      | none => rw [hj] at h; cases h
      | some data =>
        rw [hj] at h
        dsimp only at h
        cases hd : deserializeDatetime data with
        | arr items =>
          rw [hd] at h
          exact convertElements_ok_forall (getListElement sh)
            (getListElement_ok_conforming sh) items vs h
        | null => rw [hd] at h; cases h
        | bool b => rw [hd] at h; cases h
        | num n => rw [hd] at h; cases h
        | str s => rw [hd] at h; cases h
        | dt d => rw [hd] at h; cases h
        | obj entries => rw [hd] at h; cases h
    · rw [if_neg hs] at h
      cases h

theorem post_list_array (c : HttpClient) (path : String) (body : Option JValue)
    (sh : ResponseShape) (net : NetStub) (r : HttpResponse) (v : JValue)
    (items : List JValue)
    (hn : net (c.buildUrl path) body = .ok r)
    (hs : isSuccessStatus r.status = true)
    (hj : r.json = some v)
    (hd : deserializeDatetime v = .arr items) :
    c.post_list path body sh net = convertElements (postListElement sh) items := by
  unfold HttpClient.post_list
  rw [hn]
  dsimp only
  rw [if_pos hs, hj]
  dsimp only
  rw [hd]

theorem post_list_nonarray (c : HttpClient) (path : String) (body : Option JValue)
    (sh : ResponseShape) (net : NetStub) (r : HttpResponse) (v : JValue)
    (hn : net (c.buildUrl path) body = .ok r)
    (hs : isSuccessStatus r.status = true)
    (hj : r.json = some v)
    (hd : (deserializeDatetime v).isArr = false) :
    c.post_list path body sh net
      = .error (.generic 0 ("Expected list, got " ++ pyTypeName (deserializeDatetime v)) none) := by
  unfold HttpClient.post_list
  rw [hn]
  dsimp only
  rw [if_pos hs, hj]
  dsimp only
  cases hv : deserializeDatetime v with
  | arr items => rw [hv] at hd; cases hd
  | null => rfl
  | bool b => rfl
  | num n => rfl
  | str s => rfl
  | dt d => rfl
  | obj entries => rfl

theorem post_list_error_propagation (c : HttpClient) (path : String) (body : Option JValue)
    (sh : ResponseShape) (net : NetStub) (r : HttpResponse)
    (hn : net (c.buildUrl path) body = .ok r)
    (hs : isSuccessStatus r.status = false) :
    c.post_list path body sh net = .error (handleError r) := by
  unfold HttpClient.post_list
  rw [hn]
  dsimp only
  rw [if_neg (by simp [hs])]

theorem post_list_ok_conforming (c : HttpClient) (path : String) (body : Option JValue)
    (sh : ResponseShape) (net : NetStub) (vs : List ShapedValue)
    (h : c.post_list path body sh net = .ok vs) :
    ∀ v ∈ vs, objectConforming sh v := by
  unfold HttpClient.post_list at h
  cases hn : net (c.buildUrl path) body with
  | fault m => rw [hn] at h; cases h
  | ok r =>
    rw [hn] at h
    dsimp only at h
    by_cases hs : isSuccessStatus r.status = true
    · rw [if_pos hs] at h
      cases hj : r.json with
      | none => rw [hj] at h; cases h
      | some data =>
        rw [hj] at h
        dsimp only at h
        cases hd : deserializeDatetime data with
        | arr items =>
          rw [hd] at h
          exact convertElements_ok_forall (postListElement sh)
            (postListElement_ok_conforming sh) items vs h
        | null => rw [hd] at h; cases h
        | bool b => rw [hd] at h; cases h
        | num n => rw [hd] at h; cases h
        | str s => rw [hd] at h; cases h
        | dt d => rw [hd] at h; cases h
        | obj entries => rw [hd] at h; cases h
    · rw [if_neg hs] at h
      cases h

theorem get_map_without_auth_success (c : HttpClient) (path : String)
    (net : NetStub) (r : HttpResponse) (v : JValue)
    (hn : net (c.buildUrl path) none = .ok r)
    (hs : isSuccessStatus r.status = true)
    (hj : r.json = some v) :
    c.get_map_without_auth path net = .ok v := by
  unfold HttpClient.get_map_without_auth
  rw [hn]
  dsimp only
  rw [if_pos hs, hj]

theorem get_map_without_auth_error_propagation (c : HttpClient) (path : String)
    (net : NetStub) (r : HttpResponse)
    (hn : net (c.buildUrl path) none = .ok r)
    (hs : isSuccessStatus r.status = false) :
    c.get_map_without_auth path net = .error (handleError r) := by
  unfold HttpClient.get_map_without_auth
  rw [hn]
  dsimp only
  rw [if_neg (by simp [hs])]

theorem post_map_success (c : HttpClient) (path : String) (body : Option JValue)
    (net : NetStub) (r : HttpResponse) (v : JValue)
    (hn : net (c.buildUrl path) body = .ok r)
    (hs : isSuccessStatus r.status = true)
    (hj : r.json = some v) :
    c.post_map path body net = .ok v := by
  unfold HttpClient.post_map
  rw [hn]
  dsimp only
  rw [if_pos hs, hj]

theorem post_map_error_propagation (c : HttpClient) (path : String) (body : Option JValue)
    (net : NetStub) (r : HttpResponse)
    (hn : net (c.buildUrl path) body = .ok r)
    (hs : isSuccessStatus r.status = false) :
    c.post_map path body net = .error (handleError r) := by
  unfold HttpClient.post_map
  rw [hn]
  dsimp only
  rw [if_neg (by simp [hs])]

/-- C3: for every non-success HTTP response observed by `_handle_error`,
status 401 raises Unauthorized carrying 401, status 400 raises BadRequest
carrying 400, status 404 raises NotFound carrying 404, any status in
[500, 600) raises ServerError preserving that exact status, any other
non-success status raises the generic kind preserving that status, and
every raised failure carries the raw response body when available. -/
theorem spec_c3_error_classification (r : HttpResponse)
    (_hns : isSuccessStatus r.status = false) :
    (handleError r).statusCode = r.status
    ∧ (handleError r).responseBody = r.text
    ∧ (r.status = 401 → handleError r = .unauthorized r.text)
    ∧ (r.status = 400 → handleError r = .badRequest r.text)
    ∧ (r.status = 404 → handleError r = .notFound r.text)
    ∧ (500 ≤ r.status → r.status < 600 → handleError r = .serverError r.status r.text)
    ∧ (r.status ≠ 401 → r.status ≠ 400 → r.status ≠ 404 →
        ¬ (500 ≤ r.status ∧ r.status < 600) →
        handleError r
          = .generic r.status ("API request failed with status " ++ toString r.status) r.text) := by
  refine ⟨?_, ?_, ?_, ?_, ?_, ?_, ?_⟩
  · unfold handleError
    split_ifs with h1 h2 h3 h4 <;> simp_all [ApiError.statusCode]
  · unfold handleError
    split_ifs with h1 h2 h3 h4 <;> simp [ApiError.responseBody]
  · intro h
    unfold handleError
    simp [h]
  · intro h
    unfold handleError
    simp [h]
  · intro h
    unfold handleError
    simp [h]
  · intro h5 h6
    unfold handleError
    have h1 : ¬ r.status = 401 := by omega
    have h2 : ¬ r.status = 400 := by omega
    have h3 : ¬ r.status = 404 := by omega
    simp [h1, h2, h3, h5, h6]
  · intro h1 h2 h3 h4
    unfold handleError
    rcases Decidable.not_and_iff_or_not.mp h4 with h5 | h5 <;>
      simp [h1, h2, h3, h5]

/-- C3 witness: concrete classifications at statuses 401, 503 and 418. -/
theorem spec_c3_error_classification_witness :
    handleError ⟨401, some "denied", none⟩ = .unauthorized (some "denied")
    ∧ handleError ⟨503, some "oops", none⟩ = .serverError 503 (some "oops")
    ∧ handleError ⟨418, none, none⟩
        = .generic 418 ("API request failed with status " ++ toString 418) none :=
  ⟨(spec_c3_error_classification ⟨401, some "denied", none⟩ (by decide)).2.2.1 rfl,
   (spec_c3_error_classification ⟨503, some "oops", none⟩ (by decide)).2.2.2.2.2.1
     (by decide) (by decide),
   (spec_c3_error_classification ⟨418, none, none⟩ (by decide)).2.2.2.2.2.2
     (by decide) (by decide) (by decide) (by decide)⟩

/-- C4: invoking any authenticated operation on a client whose configured
API key is absent raises the `ValueError` precondition failure (distinct
from the `ApiException` taxonomy) before any network call is attempted:
the network-call counter stays at zero, because every authenticated
facade operation runs `ensure_authenticated` first (modelled by
`runAuthenticated`, the shared structure of all authenticated facade
methods). -/
theorem spec_c4_auth_precondition (α : Type) (c : HttpClient)
    (rest : Unit → Except SdkError α × Nat)
    (hkey : c.apiKey = none) :
    runAuthenticated c rest = (.error (.valueError apiKeyRequiredMessage), 0) := by
  unfold runAuthenticated HttpClient.ensure_authenticated
  rw [hkey]
  rfl

/-- C4 witness: a concrete keyless client fails the precondition with
zero network calls, whatever the rest of the operation would do. -/
theorem spec_c4_auth_precondition_witness :
    runAuthenticated (HttpClient.init "http://localhost:8081" none)
        (fun _ => (.ok (0 : Nat), 1))
      = (.error (.valueError apiKeyRequiredMessage), 0) :=
  spec_c4_auth_precondition Nat (HttpClient.init "http://localhost:8081" none)
    (fun _ => (.ok (0 : Nat), 1)) rfl

/-- C10: the credential-presence check treats an empty-string API key
exactly like an absent one — `ensure_authenticated` raises the
precondition `ValueError` for `None` and for `""`, returns without error
for every non-empty key, and a client constructed with `api_key=""`
performs zero network calls through any authenticated operation. -/
theorem spec_c10_empty_key_like_absent :
    (∀ c : HttpClient, c.apiKey = none →
        c.ensure_authenticated = .error (.valueError apiKeyRequiredMessage))
    ∧ (∀ c : HttpClient, c.apiKey = some "" →
        c.ensure_authenticated = .error (.valueError apiKeyRequiredMessage))
    ∧ (∀ (c : HttpClient) (s : String), c.apiKey = some s → s.isEmpty = false →
        c.ensure_authenticated = .ok ())
    ∧ (∀ (α : Type) (baseUrl : String) (rest : Unit → Except SdkError α × Nat),
        runAuthenticated (HttpClient.init baseUrl (some "")) rest
          = (.error (.valueError apiKeyRequiredMessage), 0)) := by
  refine ⟨?_, ?_, ?_, ?_⟩
  · intro c h
    unfold HttpClient.ensure_authenticated
    rw [h]
    rfl
  · intro c h
    unfold HttpClient.ensure_authenticated
    rw [h]
    rfl
  · intro c s h hs
    unfold HttpClient.ensure_authenticated
    rw [h]
    simp [pyTruthyOptStr, hs]
  · intro α baseUrl rest
    unfold runAuthenticated HttpClient.ensure_authenticated HttpClient.init
    rfl

/-- C10 witness: concrete empty-string and non-empty keys. -/
theorem spec_c10_empty_key_like_absent_witness :
    (HttpClient.init "u" (some "")).ensure_authenticated
        = .error (.valueError apiKeyRequiredMessage)
    ∧ (HttpClient.init "u" (some "pk_live")).ensure_authenticated = .ok () :=
  ⟨spec_c10_empty_key_like_absent.2.1 (HttpClient.init "u" (some "")) rfl,
   spec_c10_empty_key_like_absent.2.2.1 (HttpClient.init "u" (some "pk_live"))
     "pk_live" rfl rfl⟩

/-- C6: the datetime-coercion walk converts every string the ISO-8601
parse (after normalizing literal `Z` to `+00:00`) accepts into a
structured datetime, passes every non-matching string through unchanged,
recurses through objects and arrays at any depth, and is idempotent:
applying the walk twice yields the same result as applying it once. -/
theorem spec_c6_datetime_coercion :
    (∀ (s : String) (d : PyDateTime), fromisoformat (pyReplaceZ s) = some d →
        deserializeDatetime (.str s) = .dt d)
    ∧ (∀ s : String, fromisoformat (pyReplaceZ s) = none →
        deserializeDatetime (.str s) = .str s)
    ∧ (∀ entries, deserializeDatetime (.obj entries)
        = .obj (deserializeDatetimeEntries entries))
    ∧ (∀ items, deserializeDatetime (.arr items)
        = .arr (deserializeDatetimeList items))
    ∧ (∀ v, deserializeDatetime (deserializeDatetime v) = deserializeDatetime v) := by
  refine ⟨?_, ?_, fun _ => rfl, fun _ => rfl, deserializeDatetime_idem⟩
  · intro s d h
    simp [deserializeDatetime, h]
  · intro s h
    simp [deserializeDatetime, h]

/-- C6 witness: a trailing-`Z` timestamp is coerced (with the offset
normalized to +00:00) and a non-timestamp string passes unchanged. -/
theorem spec_c6_datetime_coercion_witness :
    deserializeDatetime (.str "2024-05-05T10:20:30Z")
        = .dt ⟨2024, 5, 5, 10, 20, 30, 0, some 0⟩
    ∧ deserializeDatetime (.str "hello") = .str "hello" :=
  ⟨spec_c6_datetime_coercion.1 "2024-05-05T10:20:30Z"
      ⟨2024, 5, 5, 10, 20, 30, 0, some 0⟩ rfl,
   spec_c6_datetime_coercion.2.1 "hello" rfl⟩

/-- C8: the base URL is normalized at construction (the stored `base_url`
is the `rstrip('/')` of the given URL, so a base ending in exactly one
separator loses exactly that separator), and every request URL is the
plain concatenation of the stored, already-normalized base URL with the
path — no per-call renormalization. -/
theorem spec_c8_base_url_normalization :
    (∀ (baseUrl : String) (key : Option String),
        (HttpClient.init baseUrl key).baseUrl = pyRstripSlash baseUrl)
    ∧ (∀ cs : List Char, cs.getLast? ≠ some '/' →
        pyRstripSlash (String.mk (cs ++ ['/'])) = String.mk cs)
    ∧ (∀ (c : HttpClient) (path : String), c.buildUrl path = c.baseUrl ++ path) := by
  refine ⟨fun _ _ => rfl, ?_, fun _ _ => rfl⟩
  intro cs h
  show String.mk (((cs ++ ['/']).reverse.dropWhile (fun c => c == '/')).reverse)
      = String.mk cs
  rw [List.reverse_append]
  have hsingle : ([('/' : Char)].reverse ++ cs.reverse) = '/' :: cs.reverse := by
    simp
  rw [hsingle, List.dropWhile_cons]
  simp only [beq_self_eq_true, if_true]
  cases hrev : cs.reverse with
  | nil =>
    have : cs = [] := by
      have := congrArg List.reverse hrev
      simpa using this
    subst this
    rfl
  | cons a l =>
    have ha : a ≠ '/' := by
      intro ha
      apply h
      rw [← List.head?_reverse, hrev, ha]
      rfl
    rw [show List.dropWhile (fun c => c == '/') (a :: l) = a :: l from by
      simp [List.dropWhile_cons, ha]]
    rw [← hrev, List.reverse_reverse]

/-- C8 witness: a base URL ending in exactly one slash loses exactly that
slash at construction, and the request URL is the concatenation. -/
theorem spec_c8_base_url_normalization_witness :
    (HttpClient.init "http://localhost:8081/" (some "k")).baseUrl
        = pyRstripSlash "http://localhost:8081/"
    ∧ pyRstripSlash (String.mk ("http://localhost:8081".toList ++ ['/']))
        = String.mk "http://localhost:8081".toList :=
  ⟨spec_c8_base_url_normalization.1 "http://localhost:8081/" (some "k"),
   spec_c8_base_url_normalization.2.1 "http://localhost:8081".toList (by decide)⟩

/-- C1 counterexample: the claim asserts that Submit-one (`post`) also
drops unknown payload keys and constructs the target without error, but
`post` calls `response_type(**data)` without `_filter_known_fields`: with
payload `{"id": "x", "extra": "ignored"}` against a shape declaring only
`id`, the construction raises `TypeError`, which the catch-all wraps into
`ApiException(0, ...)` — the call fails instead of dropping the key. -/
theorem spec_c1_counterexample :
    (HttpClient.init "http://localhost:8081" (some "pk")).post "/api/x" none
        ⟨["id"]⟩ (stubOk (.obj [("id", .str "x"), ("extra", .str "ignored")]))
      = .error (.generic 0 "IO error: TypeError" none) := rfl

/-- C1 amended: for Fetch-one (`get`) unknown keys are dropped and the
target is always constructed without error (the result binds exactly the
declared fields); for Submit-one (`post` and `post_without_auth`) no
filtering is applied — construction succeeds exactly when every payload
key is a declared field, and a payload with any unknown key makes the
call fail with the Generic failure of status 0 wrapping the `TypeError`. -/
theorem spec_c1_unknown_fields_amended :
    (∀ (c : HttpClient) (path : String) (sh : ResponseShape) (net : NetStub)
        (r : HttpResponse) (v : JValue) (entries : List (String × JValue)),
        net (c.buildUrl path) none = .ok r →
        isSuccessStatus r.status = true →
        r.json = some v →
        deserializeDatetime v = .obj entries →
        c.get path sh net
          = .ok (.typed (sh.fields.map (fun f => (f, (jlookup entries f).getD .null)))))
    ∧ (∀ (c : HttpClient) (path : String) (body : Option JValue) (sh : ResponseShape)
        (net : NetStub) (r : HttpResponse) (v : JValue) (entries : List (String × JValue)),
        net (c.buildUrl path) body = .ok r →
        isSuccessStatus r.status = true →
        r.json = some v →
        deserializeDatetime v = .obj entries →
        entries.all (fun kv => sh.fields.contains kv.1) = true →
        c.post path body sh net
            = .ok (.typed (sh.fields.map (fun f => (f, (jlookup entries f).getD .null))))
          ∧ c.post_without_auth path body sh net
            = .ok (.typed (sh.fields.map (fun f => (f, (jlookup entries f).getD .null)))))
    ∧ (∀ (c : HttpClient) (path : String) (body : Option JValue) (sh : ResponseShape)
        (net : NetStub) (r : HttpResponse) (v : JValue) (entries : List (String × JValue)),
        net (c.buildUrl path) body = .ok r →
        isSuccessStatus r.status = true →
        r.json = some v →
        deserializeDatetime v = .obj entries →
        entries.all (fun kv => sh.fields.contains kv.1) = false →
        c.post path body sh net = .error (.generic 0 "IO error: TypeError" none)
          ∧ c.post_without_auth path body sh net
            = .error (.generic 0 "IO error: TypeError" none)) := by
  refine ⟨?_, ?_, ?_⟩
  · intro c path sh net r v entries hn hs hj hd
    exact get_success_obj c path sh net r v entries hn hs hj hd
  · intro c path body sh net r v entries hn hs hj hd hall
    refine ⟨post_success_obj c path body sh net r v entries hn hs hj hd hall, ?_⟩
    rw [post_without_auth_eq_post]
    exact post_success_obj c path body sh net r v entries hn hs hj hd hall
  · intro c path body sh net r v entries hn hs hj hd hall
    refine ⟨post_unknown_field_error c path body sh net r v entries hn hs hj hd hall, ?_⟩
    rw [post_without_auth_eq_post]
    exact post_unknown_field_error c path body sh net r v entries hn hs hj hd hall

/-- C1 witness: `get` with payload `{"id": "x", "extra": "ignored"}`
against a shape declaring only `id` yields the constructed value with
`id = "x"` and no failure. -/
theorem spec_c1_unknown_fields_amended_witness :
    (HttpClient.init "http://localhost:8081" (some "pk")).get "/api/x"
        ⟨["id"]⟩ (stubOk (.obj [("id", .str "x"), ("extra", .str "ignored")]))
      = .ok (.typed [("id", .str "x")]) :=
  spec_c1_unknown_fields_amended.1
    (HttpClient.init "http://localhost:8081" (some "pk")) "/api/x" ⟨["id"]⟩
    (stubOk (.obj [("id", .str "x"), ("extra", .str "ignored")]))
    ⟨200, some "body", some (.obj [("id", .str "x"), ("extra", .str "ignored")])⟩
    (.obj [("id", .str "x"), ("extra", .str "ignored")])
    [("id", .str "x"), ("extra", .str "ignored")]
    rfl rfl rfl rfl

/-- C5 counterexample: the claim asserts that Submit-list (`post_list`)
also applies the unknown-field projection to object elements, but
`post_list` constructs `element_type(**item)` without filtering: an
element `{"id": "x", "extra": "y"}` against an element shape declaring
only `id` raises `TypeError`, wrapped into the Generic failure of status
0 — instead of yielding the projected element. -/
theorem spec_c5_counterexample :
    (HttpClient.init "http://localhost:8081" (some "pk")).post_list "/api/x" none
        ⟨["id"]⟩ (stubOk (.arr [.obj [("id", .str "x"), ("extra", .str "y")]]))
      = .error (.generic 0 "IO error: TypeError" none) := rfl

/-- C5 amended: for both list operations a successfully parsed top-level
payload that is not an array raises the Generic failure (never a silent
empty list), and non-object elements are left untouched; the unknown-field
projection is applied to object elements by `get_list` only — `post_list`
constructs each object element directly, succeeding exactly when every
key of the element is declared and failing with the Generic status-0
failure otherwise. -/
theorem spec_c5_list_shape_amended :
    (∀ (c : HttpClient) (path : String) (sh : ResponseShape) (net : NetStub)
        (r : HttpResponse) (v : JValue),
        net (c.buildUrl path) none = .ok r →
        isSuccessStatus r.status = true →
        r.json = some v →
        (deserializeDatetime v).isArr = false →
        c.get_list path sh net
          = .error (.generic 0
              ("Expected list, got " ++ pyTypeName (deserializeDatetime v)) none))
    ∧ (∀ (c : HttpClient) (path : String) (body : Option JValue) (sh : ResponseShape)
        (net : NetStub) (r : HttpResponse) (v : JValue),
        net (c.buildUrl path) body = .ok r →
        isSuccessStatus r.status = true →
        r.json = some v →
        (deserializeDatetime v).isArr = false →
        c.post_list path body sh net
          = .error (.generic 0
              ("Expected list, got " ++ pyTypeName (deserializeDatetime v)) none))
    ∧ (∀ (c : HttpClient) (path : String) (sh : ResponseShape) (net : NetStub)
        (r : HttpResponse) (v : JValue) (items : List JValue),
        net (c.buildUrl path) none = .ok r →
        isSuccessStatus r.status = true →
        r.json = some v →
        deserializeDatetime v = .arr items →
        c.get_list path sh net = convertElements (getListElement sh) items)
    ∧ (∀ (c : HttpClient) (path : String) (body : Option JValue) (sh : ResponseShape)
        (net : NetStub) (r : HttpResponse) (v : JValue) (items : List JValue),
        net (c.buildUrl path) body = .ok r →
        isSuccessStatus r.status = true →
        r.json = some v →
        deserializeDatetime v = .arr items →
        c.post_list path body sh net = convertElements (postListElement sh) items)
    ∧ (∀ (sh : ResponseShape) (entries : List (String × JValue)),
        getListElement sh (.obj entries)
          = .ok (.typed (sh.fields.map (fun f => (f, (jlookup entries f).getD .null)))))
    ∧ (∀ (sh : ResponseShape) (x : JValue), x.isObj = false →
        getListElement sh x = .ok (.raw x) ∧ postListElement sh x = .ok (.raw x))
    ∧ (∀ (sh : ResponseShape) (entries : List (String × JValue)),
        entries.all (fun kv => sh.fields.contains kv.1) = true →
        postListElement sh (.obj entries)
          = .ok (.typed (sh.fields.map (fun f => (f, (jlookup entries f).getD .null)))))
    ∧ (∀ (sh : ResponseShape) (entries : List (String × JValue)),
        entries.all (fun kv => sh.fields.contains kv.1) = false →
        postListElement sh (.obj entries)
          = .error (.generic 0 "IO error: TypeError" none)) := by
  refine ⟨?_, ?_, ?_, ?_, getListElement_obj, ?_, postListElement_obj_known,
    postListElement_obj_unknown⟩
  · intro c path sh net r v hn hs hj hd
    exact get_list_nonarray c path sh net r v hn hs hj hd
  · intro c path body sh net r v hn hs hj hd
    exact post_list_nonarray c path body sh net r v hn hs hj hd
  · intro c path sh net r v items hn hs hj hd
    exact get_list_array c path sh net r v items hn hs hj hd
  · intro c path body sh net r v items hn hs hj hd
    exact post_list_array c path body sh net r v items hn hs hj hd
  · intro sh x hx
    cases x with
    | obj entries => cases hx
    | null => exact ⟨rfl, rfl⟩
    | bool b => exact ⟨rfl, rfl⟩
    | num n => exact ⟨rfl, rfl⟩
    | str s => exact ⟨rfl, rfl⟩
    | dt d => exact ⟨rfl, rfl⟩
    | arr items => exact ⟨rfl, rfl⟩

/-- C5 witness: `get_list` on `[{"id": "x", "extra": "y"}, 5]` projects
the object element to the declared field and leaves the non-object
element untouched, and a non-array payload `{"id": "x"}` makes `get_list`
raise the Generic failure. -/
theorem spec_c5_list_shape_amended_witness :
    (HttpClient.init "http://localhost:8081" (some "pk")).get_list "/api/x"
        ⟨["id"]⟩ (stubOk (.arr [.obj [("id", .str "x"), ("extra", .str "y")], .num 5]))
      = .ok [.typed [("id", .str "x")], .raw (.num 5)]
    ∧ (HttpClient.init "http://localhost:8081" (some "pk")).get_list "/api/x"
        ⟨["id"]⟩ (stubOk (.obj [("id", .str "x")]))
      = .error (.generic 0 ("Expected list, got " ++ pyTypeName
          (deserializeDatetime (.obj [("id", .str "x")]))) none) :=
  ⟨Eq.trans
    (spec_c5_list_shape_amended.2.2.1
      (HttpClient.init "http://localhost:8081" (some "pk")) "/api/x" ⟨["id"]⟩
      (stubOk (.arr [.obj [("id", .str "x"), ("extra", .str "y")], .num 5]))
      ⟨200, some "body", some (.arr [.obj [("id", .str "x"), ("extra", .str "y")], .num 5])⟩
      (.arr [.obj [("id", .str "x"), ("extra", .str "y")], .num 5])
      [.obj [("id", .str "x"), ("extra", .str "y")], .num 5]
      rfl rfl rfl rfl)
    rfl,
   spec_c5_list_shape_amended.1
    (HttpClient.init "http://localhost:8081" (some "pk")) "/api/x" ⟨["id"]⟩
    (stubOk (.obj [("id", .str "x")]))
    ⟨200, some "body", some (.obj [("id", .str "x")])⟩
    (.obj [("id", .str "x")])
    rfl rfl rfl rfl⟩

/-- C7 counterexample: the claim asserts raw-map operations return the
parsed body with the recursive datetime coercion already applied, but
`get_map_without_auth`, `post_map` and `post_map_without_auth` return
`response.json()` directly without calling `_deserialize_datetime`: with
payload `{"t": "2024-05-05T10:20:30Z"}` the timestamp string comes back
uncoerced, so the returned value differs from the coerced payload the
claim predicts. -/
theorem spec_c7_counterexample :
    (HttpClient.init "u" none).get_map_without_auth "/p"
        (stubOk (.obj [("t", .str "2024-05-05T10:20:30Z")]))
      = .ok (.obj [("t", .str "2024-05-05T10:20:30Z")])
    ∧ ¬ ((HttpClient.init "u" none).get_map_without_auth "/p"
        (stubOk (.obj [("t", .str "2024-05-05T10:20:30Z")]))
      = .ok (deserializeDatetime (.obj [("t", .str "2024-05-05T10:20:30Z")]))) := by
  refine ⟨rfl, ?_⟩
  intro h
  have hres : (HttpClient.init "u" none).get_map_without_auth "/p"
      (stubOk (.obj [("t", .str "2024-05-05T10:20:30Z")]))
      = .ok (.obj [("t", .str "2024-05-05T10:20:30Z")]) := rfl
  have hcoerce : deserializeDatetime (.obj [("t", .str "2024-05-05T10:20:30Z")])
      = .obj [("t", .dt ⟨2024, 5, 5, 10, 20, 30, 0, some 0⟩)] := rfl
  rw [hres, hcoerce] at h
  simp at h

/-- C7 amended: every raw-map operation (`get_map_without_auth`,
`post_map`, `post_map_without_auth`) returns the parsed JSON body
verbatim — no field projection and, unlike the typed operations, no
datetime coercion at all. -/
theorem spec_c7_raw_map_amended :
    (∀ (c : HttpClient) (path : String) (net : NetStub) (r : HttpResponse) (v : JValue),
        net (c.buildUrl path) none = .ok r →
        isSuccessStatus r.status = true →
        r.json = some v →
        c.get_map_without_auth path net = .ok v)
    ∧ (∀ (c : HttpClient) (path : String) (body : Option JValue) (net : NetStub)
        (r : HttpResponse) (v : JValue),
        net (c.buildUrl path) body = .ok r →
        isSuccessStatus r.status = true →
        r.json = some v →
        c.post_map path body net = .ok v
          ∧ c.post_map_without_auth path body net = .ok v) := by
  refine ⟨?_, ?_⟩
  · intro c path net r v hn hs hj
    exact get_map_without_auth_success c path net r v hn hs hj
  · intro c path body net r v hn hs hj
    refine ⟨post_map_success c path body net r v hn hs hj, ?_⟩
    rw [post_map_without_auth_eq_post_map]
    exact post_map_success c path body net r v hn hs hj

/-- C7 witness: `post_map` returns the parsed payload as-is, timestamp
strings included. -/
theorem spec_c7_raw_map_amended_witness :
    (HttpClient.init "u" (some "k")).post_map "/p" none
        (stubOk (.obj [("a", .num 1), ("when", .str "2023-01-02T03:04:05Z")]))
      = .ok (.obj [("a", .num 1), ("when", .str "2023-01-02T03:04:05Z")]) :=
  ((spec_c7_raw_map_amended.2 (HttpClient.init "u" (some "k")) "/p" none
    (stubOk (.obj [("a", .num 1), ("when", .str "2023-01-02T03:04:05Z")]))
    ⟨200, some "body", some (.obj [("a", .num 1), ("when", .str "2023-01-02T03:04:05Z")])⟩
    (.obj [("a", .num 1), ("when", .str "2023-01-02T03:04:05Z")])
    rfl rfl rfl).1)

/-- C9: submitting a message-submission request built from
`{username: "alice", message: "hi", agentName: "Bot", agentPlatform:
"OpenAI", agentVersion: "1.0", userEmail: "a@x.com"}` through Submit-one
against a stub backend echoing
`{"success": true, "messageId": "<uuid>", "conversationId": "<uuid>"}`
yields exactly one network call and a result whose `success` field is
`true`, whose `messageId` and `conversationId` fields hold the UUID
values from the payload, and whose `message` field remains unset (`None`,
because the key is absent from the payload); all other declared fields
default to `None` as well. -/
theorem spec_c9_round_trip :
    send_human_message (HttpClient.init "http://localhost:8081" (some "pk_key"))
        "alice" "hi" "Bot" "OpenAI" "a@x.com" none none none none none
        (some "1.0") none none
        (stubOk (.obj [("success", .bool true),
                       ("messageId", .str "550e8400-e29b-41d4-a716-446655440000"),
                       ("conversationId", .str "6fa459ea-ee8a-3ca4-894e-db77e160355e")]))
      = (.ok (.typed [("success", .bool true),
                      ("messageId", .str "550e8400-e29b-41d4-a716-446655440000"),
                      ("conversationId", .str "6fa459ea-ee8a-3ca4-894e-db77e160355e"),
                      ("message", .null),
                      ("contextualPrompt", .null),
                      ("humanQuery", .null),
                      ("previousKConversations", .null),
                      ("similarConversations", .null),
                      ("operationStatus", .null),
                      ("conversationTitle", .null)]), 1) := rfl

/-- C2: every failure escaping a transport operation is a member of the
closed five-kind taxonomy (`ApiError` has exactly the constructors
Unauthorized, BadRequest, NotFound, ServerError, Generic — the ops'
result type admits no other failure); a non-success status makes every
operation raise exactly the classifier's error, unwrapped, and the
internally raised list-shape Generic failure likewise escapes unchanged;
and every successful object- or list-shape call returns a value
conforming to the declared shape (a constructed instance binding exactly
the declared fields, or a non-object passthrough). -/
theorem spec_c2_failure_semantics :
    (∀ e : ApiError,
        (∃ b, e = .unauthorized b) ∨ (∃ b, e = .badRequest b)
        ∨ (∃ b, e = .notFound b) ∨ (∃ s b, e = .serverError s b)
        ∨ (∃ s m b, e = .generic s m b))
    ∧ (∀ (c : HttpClient) (path : String) (sh : ResponseShape) (net : NetStub)
        (r : HttpResponse),
        net (c.buildUrl path) none = .ok r →
        isSuccessStatus r.status = false →
        c.get path sh net = .error (handleError r)
          ∧ c.get_list path sh net = .error (handleError r)
          ∧ c.get_map_without_auth path net = .error (handleError r))
    ∧ (∀ (c : HttpClient) (path : String) (body : Option JValue) (sh : ResponseShape)
        (net : NetStub) (r : HttpResponse),
        net (c.buildUrl path) body = .ok r →
        isSuccessStatus r.status = false →
        c.post path body sh net = .error (handleError r)
          ∧ c.post_without_auth path body sh net = .error (handleError r)
          ∧ c.post_list path body sh net = .error (handleError r)
          ∧ c.post_map path body net = .error (handleError r)
          ∧ c.post_map_without_auth path body net = .error (handleError r))
    ∧ (∀ (c : HttpClient) (path : String) (sh : ResponseShape) (net : NetStub)
        (r : HttpResponse) (v : JValue),
        net (c.buildUrl path) none = .ok r →
        isSuccessStatus r.status = true →
        r.json = some v →
        (deserializeDatetime v).isArr = false →
        c.get_list path sh net
          = .error (.generic 0
              ("Expected list, got " ++ pyTypeName (deserializeDatetime v)) none))
    ∧ (∀ (c : HttpClient) (path : String) (sh : ResponseShape) (net : NetStub)
        (v : ShapedValue),
        c.get path sh net = .ok v → objectConforming sh v)
    ∧ (∀ (c : HttpClient) (path : String) (body : Option JValue) (sh : ResponseShape)
        (net : NetStub) (v : ShapedValue),
        c.post path body sh net = .ok v → objectConforming sh v)
    ∧ (∀ (c : HttpClient) (path : String) (body : Option JValue) (sh : ResponseShape)
        (net : NetStub) (v : ShapedValue),
        c.post_without_auth path body sh net = .ok v → objectConforming sh v)
    ∧ (∀ (c : HttpClient) (path : String) (sh : ResponseShape) (net : NetStub)
        (vs : List ShapedValue),
        c.get_list path sh net = .ok vs → ∀ v ∈ vs, objectConforming sh v)
    ∧ (∀ (c : HttpClient) (path : String) (body : Option JValue) (sh : ResponseShape)
        (net : NetStub) (vs : List ShapedValue),
        c.post_list path body sh net = .ok vs → ∀ v ∈ vs, objectConforming sh v) := by
  refine ⟨?_, ?_, ?_, ?_, ?_, ?_, ?_, ?_, ?_⟩
  · intro e
    cases e with
    | unauthorized b => exact Or.inl ⟨b, rfl⟩
    | badRequest b => exact Or.inr (Or.inl ⟨b, rfl⟩)
    | notFound b => exact Or.inr (Or.inr (Or.inl ⟨b, rfl⟩))
    | serverError s b => exact Or.inr (Or.inr (Or.inr (Or.inl ⟨s, b, rfl⟩)))
    | generic s m b => exact Or.inr (Or.inr (Or.inr (Or.inr ⟨s, m, b, rfl⟩)))
  · intro c path sh net r hn hs
    exact ⟨get_error_propagation c path sh net r hn hs,
      get_list_error_propagation c path sh net r hn hs,
      get_map_without_auth_error_propagation c path net r hn hs⟩
  · intro c path body sh net r hn hs
    refine ⟨post_error_propagation c path body sh net r hn hs, ?_,
      post_list_error_propagation c path body sh net r hn hs,
      post_map_error_propagation c path body net r hn hs, ?_⟩
    · rw [post_without_auth_eq_post]
      exact post_error_propagation c path body sh net r hn hs
    · rw [post_map_without_auth_eq_post_map]
      exact post_map_error_propagation c path body net r hn hs
  · intro c path sh net r v hn hs hj hd
    exact get_list_nonarray c path sh net r v hn hs hj hd
  · intro c path sh net v h
    exact get_ok_objectConforming c path sh net v h
  · intro c path body sh net v h
    exact post_ok_objectConforming c path body sh net v h
  · intro c path body sh net v h
    rw [post_without_auth_eq_post] at h
    exact post_ok_objectConforming c path body sh net v h
  · intro c path sh net vs h
    exact get_list_ok_conforming c path sh net vs h
  · intro c path body sh net vs h
    exact post_list_ok_conforming c path body sh net vs h

/-- C2 witness: a 404 response escapes `get` exactly as the classifier's
NotFound failure, and a success conformance instance at a concrete call. -/
theorem spec_c2_failure_semantics_witness :
    (HttpClient.init "u" (some "k")).get "/p" ⟨["id"]⟩
        (stubResp ⟨404, some "nf", none⟩)
      = .error (.notFound (some "nf"))
    ∧ objectConforming ⟨["id"]⟩
        (.typed [("id", JValue.str "x")]) :=
  ⟨((spec_c2_failure_semantics.2.1 (HttpClient.init "u" (some "k")) "/p" ⟨["id"]⟩
      (stubResp ⟨404, some "nf", none⟩) ⟨404, some "nf", none⟩ rfl rfl).1 :
      (HttpClient.init "u" (some "k")).get "/p" ⟨["id"]⟩
        (stubResp ⟨404, some "nf", none⟩) = .error (.notFound (some "nf"))),
   spec_c2_failure_semantics.2.2.2.2.1 (HttpClient.init "u" (some "k")) "/p"
     ⟨["id"]⟩ (stubOk (.obj [("id", .str "x")]))
     (.typed [("id", JValue.str "x")]) rfl⟩

end ShiftaiSdk
